import Mathlib

/-!
Verification of the stock-tracker monitoring core (`src/stock_tracker.py`).

The definitions below are a shallow embedding of the background monitoring
scheduler of the script: the market-hours gate, the NIFTY-50 ticker-list
provider, the per-ticker fetch/classify/alert loop of `check_indian_stocks`,
the scheduler registration in `run_indian_scheduler`, and the India-only
thread start at the bottom of the script.  Prices and thresholds are
modelled as rationals; per-call failures of the external collaborators
(HTTP fetch, price-series provider) are modelled as explicit outcome
values supplied by an environment.
-/

set_option autoImplicit false

namespace StockTracker

/-- A civil time-of-day, as Python's `datetime.time` carries it: hour,
minute, second and microsecond, each validated to its range (Python's
`time` constructor rejects out-of-range fields). -/
structure LocalTime where
  hour : Nat
  minute : Nat
  second : Nat
  microsecond : Nat
  hour_lt : hour < 24
  minute_lt : minute < 60
  second_lt : second < 60
  micro_lt : microsecond < 1000000

/-- Microseconds since midnight.  On valid times, comparison of these
values coincides with Python's lexicographic `datetime.time` comparison. -/
def LocalTime.toMicros (t : LocalTime) : Nat :=
  ((t.hour * 60 + t.minute) * 60 + t.second) * 1000000 + t.microsecond

/-- `market_open = time(9, 30)` (line 166). -/
def marketOpen : LocalTime :=
  ⟨9, 30, 0, 0, by decide, by decide, by decide, by decide⟩

/-- `market_close = time(15, 30)` (line 167). -/
def marketClose : LocalTime :=
  ⟨15, 30, 0, 0, by decide, by decide, by decide, by decide⟩

/-- The market-hours gate of `check_indian_stocks` (lines 164–169):
return early (market closed) when `now.weekday() >= 5`, and when
`not (market_open <= now.time() <= market_close)` — note both bounds of
the Python chained comparison are inclusive. -/
def isOpen (weekday : Nat) (t : LocalTime) : Bool :=
  if 5 ≤ weekday then false
  else if ¬(marketOpen.toMicros ≤ t.toMicros ∧ t.toMicros ≤ marketClose.toMicros) then
    false
  else true

/-- One row of the price-series response: the `Close` price for one date. -/
structure Row where
  close : ℚ
  deriving DecidableEq, Repr

/-- Outcome of the per-ticker provider call `yf.Ticker(ticker)` /
`stock.history(...)` (lines 174–176): either the call raised, or it
returned a (possibly empty) time-ordered list of rows. -/
inductive FetchResult where
  | err : FetchResult
  | ok : List Row → FetchResult
  deriving DecidableEq, Repr

/-- Lines 178–180: `start_price = data["Close"].iloc[0]`,
`end_price = data["Close"].iloc[-1]`,
`pct_change = ((end_price - start_price) / start_price) * 100`;
guarded by `if not data.empty` (line 177), so nothing is computed for an
empty window. -/
def computeChange : List Row → Option (ℚ × ℚ × ℚ)
  | [] => none
  | row :: rows =>
    let startPrice := row.close
    let endPrice := (List.getLastD rows row).close
    some (startPrice, endPrice, (endPrice - startPrice) / startPrice * 100)

/-- Classification outcome of the `if/elif` at lines 181–186. -/
inductive Direction where
  | none : Direction
  | drop : Direction
  | gain : Direction
  deriving DecidableEq, Repr

/-- Lines 181–186: `if pct_change <= drop_threshold: ... elif
pct_change >= gain_threshold: ...` — the drop branch is tested first. -/
def classify (pctChange dropT gainT : ℚ) : Direction :=
  if pctChange ≤ dropT then .drop
  else if gainT ≤ pctChange then .gain
  else .none

/-- The content of one Telegram alert message (lines 182 and 185): the
ticker, the direction, and the prices embedded in the formatted text. -/
structure Alert where
  ticker : String
  direction : Direction
  pctChange : ℚ
  startPrice : ℚ
  endPrice : ℚ
  deriving DecidableEq, Repr

/-- The body of the per-ticker loop of `check_indian_stocks`
(lines 172–188): the whole body sits in a `try`, so a raising provider
call skips the ticker (`except: continue`); an empty window computes
nothing; otherwise the percentage change is classified and at most one
alert message is sent. -/
def processTicker (dropT gainT : ℚ) (ticker : String) (r : FetchResult) :
    List Alert :=
  match r with
  | .err => []
  | .ok rows =>
    match computeChange rows with
    | none => []
    | some (startPrice, endPrice, pct) =>
      match classify pct dropT gainT with
      | .drop => [⟨ticker, .drop, pct, startPrice, endPrice⟩]
      | .gain => [⟨ticker, .gain, pct, startPrice, endPrice⟩]
      | .none => []

/-- The external state `get_india_top50` depends on: the outcome of
`fetch_html` (which calls `response.raise_for_status()`, so an HTTP
failure raises, line 28–32) and the result of scanning the parsed tables
for a usable ticker column (`none` models both "no matching table" and
"no usable column", lines 46–61, each of which shows an error message
and returns `[]`). -/
structure NiftySource where
  html : Except Unit String
  parse : String → Option (List String)

/-- `get_india_top50` (lines 41–62): propagates a raising `fetch_html`
uncaught; on a parse failure returns the empty list; otherwise appends
`.NS` to each symbol and keeps the first 50. -/
def get_india_top50 (src : NiftySource) : Except Unit (List String) :=
  match src.html with
  | .error e => .error e
  | .ok h =>
    match src.parse h with
    | none => .ok []
    | some syms => .ok ((syms.map (fun x => x ++ ".NS")).take 50)

/-- The environment one run of `check_indian_stocks` observes:
`now.weekday()`, `now.time()`, the outcome of the `get_india_top50()`
call at line 171, and the per-ticker outcome of the provider calls. -/
structure Env where
  weekday : Nat
  timeOfDay : LocalTime
  tickersResult : Except Unit (List String)
  fetch : String → FetchResult

/-- The observable effects of one run: which tickers had a price fetch
attempted, and which alert messages were sent. -/
structure CycleTrace where
  fetches : List String
  alerts : List Alert
  deriving DecidableEq, Repr

/-- One run of `check_indian_stocks` (lines 161–188).  Closed market
(lines 164–169): return with no effects.  The `get_india_top50()` call
at line 171 is *not* inside a `try`: if it raises, the exception
propagates out of the function (`Except.error`).  Otherwise every ticker
of the list is processed by the guarded loop body in order. -/
def runCycle (dropT gainT : ℚ) (env : Env) : Except Unit CycleTrace :=
  if isOpen env.weekday env.timeOfDay = false then .ok ⟨[], []⟩
  else
    match env.tickersResult with
    | .error e => .error e
    | .ok tickers =>
      .ok ⟨tickers,
           tickers.flatMap (fun tk => processTicker dropT gainT tk (env.fetch tk))⟩

/-- The thresholds bound into the scheduled job. -/
structure Job where
  dropT : ℚ
  gainT : ℚ
  deriving DecidableEq, Repr

/-- Line 191: `schedule.every(1).hours.do(check_indian_stocks,
drop_threshold=drop_threshold, gain_threshold=gain_threshold)` — the
keyword arguments are evaluated once, when the job is registered. -/
def registerJob (dropT gainT : ℚ) : Job := ⟨dropT, gainT⟩

/-- Each pending run invokes `check_indian_stocks` with exactly the
keyword arguments bound at registration (lines 192–194); the foreground
session's current slider values are not consulted by the running job. -/
def runScheduledCycle (job : Job) (env : Env) : Except Unit CycleTrace :=
  runCycle job.dropT job.gainT env

/-- Two consecutive runs of the job registered by
`run_indian_scheduler` with `initialCfg`, where the foreground session
edits its sliders to `cfgAfterEdit` between the two runs.  The edit has
no channel into the already-registered job, which is the point proved
about it below. -/
def runTwoCycles (initialCfg _cfgAfterEdit : ℚ × ℚ) (env1 env2 : Env) :
    Except Unit CycleTrace × Except Unit CycleTrace :=
  let job := registerJob initialCfg.1 initialCfg.2
  (runScheduledCycle job env1, runScheduledCycle job env2)

/-- Lines 197–198: `if exchange == "India":
threading.Thread(target=run_indian_scheduler, daemon=True).start()`. -/
def schedulerStarted (exchange : String) : Bool := exchange == "India"

/-- The background-monitoring Telegram alerts a session can produce:
only the scheduler thread sends them, and the thread is started only for
the India exchange.  A cycle that raises sends whatever it sent before
raising; since the raise here happens before any ticker is processed
(line 171), that is nothing. -/
def backgroundAlerts (exchange : String) (dropT gainT : ℚ) (env : Env) :
    List Alert :=
  if schedulerStarted exchange then
    match runCycle dropT gainT env with
    | .ok t => t.alerts
    | .error _ => []
  else []

/-! Concrete fixtures used by witnesses and counterexamples. -/

/-- 09:29:59 local. -/
def t092959 : LocalTime :=
  ⟨9, 29, 59, 0, by decide, by decide, by decide, by decide⟩

/-- 09:30:00 local. -/
def t093000 : LocalTime :=
  ⟨9, 30, 0, 0, by decide, by decide, by decide, by decide⟩

/-- 15:29:59 local. -/
def t152959 : LocalTime :=
  ⟨15, 29, 59, 0, by decide, by decide, by decide, by decide⟩

/-- 15:30:00 local, exactly. -/
def t153000 : LocalTime :=
  ⟨15, 30, 0, 0, by decide, by decide, by decide, by decide⟩

/-- 15:30:00.000001 local, one microsecond past the close. -/
def t153000u : LocalTime :=
  ⟨15, 30, 0, 1, by decide, by decide, by decide, by decide⟩

/-- 12:00:00 local, mid-session. -/
def t120000 : LocalTime :=
  ⟨12, 0, 0, 0, by decide, by decide, by decide, by decide⟩

/-- A Wednesday mid-session environment whose watch-list is A, B, C and
where the provider call for B raises while A and C each return a window
falling from 100 to 90. -/
def envIsolation : Env :=
  ⟨2, t120000, .ok ["A", "B", "C"],
   fun tk => if tk = "B" then .err else .ok [⟨100⟩, ⟨90⟩]⟩

/-- A Saturday environment with a live watch-list and provider, to show
the gate alone suppresses all activity. -/
def envSaturday : Env :=
  ⟨5, t120000, .ok ["X"], fun _ => .ok [⟨100⟩, ⟨50⟩]⟩

/-- A ticker-list source whose HTTP fetch raises (network failure /
non-2xx status, surfaced by `raise_for_status`). -/
def srcUnreachable : NiftySource := ⟨.error (), fun _ => none⟩

/-- A ticker-list source whose page is fetched but contains no usable
NIFTY-50 table or ticker column. -/
def srcParseFail : NiftySource := ⟨.ok "<html></html>", fun _ => none⟩

/-- Wednesday mid-session, with the ticker-list call outcome produced by
the unreachable source. -/
def envListUnreachable : Env :=
  ⟨2, t120000, get_india_top50 srcUnreachable, fun _ => .ok [⟨100⟩]⟩

/-- Wednesday mid-session, with the ticker-list call outcome produced by
the parse-failing source. -/
def envListParseFail : Env :=
  ⟨2, t120000, get_india_top50 srcParseFail, fun _ => .ok [⟨100⟩]⟩

/-- Wednesday mid-session, one watched ticker whose window falls from
100 to 98 (a -2% move). -/
def envMinus2 : Env :=
  ⟨2, t120000, .ok ["TCS.NS"], fun _ => .ok [⟨100⟩, ⟨98⟩]⟩

/-! Theorems settling the claims. -/

/-- Helper: a cycle on an open market with ticker list `tickers`
attempts every ticker and concatenates the per-ticker alerts. -/
theorem runCycle_open_eq (dropT gainT : ℚ) (env : Env) (tickers : List String)
    (hopen : isOpen env.weekday env.timeOfDay = true)
    (htk : env.tickersResult = .ok tickers) :
    runCycle dropT gainT env =
      .ok ⟨tickers,
        tickers.flatMap (fun tk => processTicker dropT gainT tk (env.fetch tk))⟩ := by
  simp [runCycle, hopen, htk]

/-- C1 (counterexample): the claim says `isOpen` is false at exactly
15:30:00 on a weekday, but the chained comparison
`market_open <= now.time() <= market_close` is inclusive at both ends,
so on Monday at exactly 15:30:00 the gate reports the market open. -/
theorem isOpen_true_at_153000 : isOpen 0 t153000 = true := by decide

/-- C1 (amended): the trading window of the gate is the closed interval
[09:30:00, 15:30:00]: on every weekday the gate is closed at 09:29:59,
open at 09:30:00, open at 15:29:59, still open at exactly 15:30:00, and
closed one microsecond after 15:30:00. -/
theorem isOpen_boundaries (weekday : Nat) (h : weekday < 5) :
    isOpen weekday t092959 = false ∧ isOpen weekday t093000 = true ∧
    isOpen weekday t152959 = true ∧ isOpen weekday t153000 = true ∧
    isOpen weekday t153000u = false := by
  have h5 : ¬ (5 ≤ weekday) := by omega
  refine ⟨?_, ?_, ?_, ?_, ?_⟩ <;>
    · unfold isOpen
      rw [if_neg h5]
      decide

/-- C1 (witness for the amended theorem), at Wednesday. -/
theorem isOpen_boundaries_witness :
    (2 : Nat) < 5 ∧
    (isOpen 2 t092959 = false ∧ isOpen 2 t093000 = true ∧
     isOpen 2 t152959 = true ∧ isOpen 2 t153000 = true ∧
     isOpen 2 t153000u = false) :=
  ⟨by decide, isOpen_boundaries 2 (by decide)⟩

/-- C2: when the provider call raises for a ticker B sitting between
tickers `pre` and `post` of the watch-list, the cycle still attempts a
fetch for every ticker of the list, B contributes no alert, and the
alerts of the cycle are exactly those of `pre` followed by those of
`post`, each computed from its own fetch outcome — the batch is never
aborted by B's failure. -/
theorem runCycle_isolates_failure (dropT gainT : ℚ) (env : Env)
    (pre : List String) (b : String) (post : List String)
    (hopen : isOpen env.weekday env.timeOfDay = true)
    (htk : env.tickersResult = .ok (pre ++ b :: post))
    (hb : env.fetch b = .err) :
    runCycle dropT gainT env =
      .ok ⟨pre ++ b :: post,
        pre.flatMap (fun tk => processTicker dropT gainT tk (env.fetch tk)) ++
        post.flatMap (fun tk => processTicker dropT gainT tk (env.fetch tk))⟩ := by
  simp [runCycle, hopen, htk, List.flatMap_append, List.flatMap_cons, hb,
    processTicker]

/-- C2 (witness): watch-list [A, B, C], B's fetch raises, A and C each
fall 10%: both A and C are alerted, every ticker was attempted. -/
theorem runCycle_isolates_failure_witness :
    runCycle (-5) 5 envIsolation =
      .ok ⟨["A", "B", "C"],
           [⟨"A", .drop, -10, 100, 90⟩, ⟨"C", .drop, -10, 100, 90⟩]⟩ := by
  rw [runCycle_isolates_failure (-5) 5 envIsolation ["A"] "B" ["C"]
    (by decide) rfl rfl]
  have hA : envIsolation.fetch "A" = .ok [⟨100⟩, ⟨90⟩] := rfl
  have hC : envIsolation.fetch "C" = .ok [⟨100⟩, ⟨90⟩] := rfl
  simp only [List.flatMap_cons, List.flatMap_nil, hA, hC]
  norm_num [processTicker, computeChange, classify]

/-- C3: whenever the percentage change is at or below the drop
threshold, the classification is DROP, whatever the gain threshold is —
the drop branch of the `if/elif` is evaluated first. -/
theorem classify_drop_precedence (pctChange dropT gainT : ℚ)
    (h : pctChange ≤ dropT) : classify pctChange dropT gainT = .drop := by
  simp [classify, h]

/-- C3 (witness): under the misconfiguration dropT = 1 > gainT = -1,
a 0% change satisfies both branches and DROP wins. -/
theorem classify_drop_precedence_witness :
    (0 : ℚ) ≤ 1 ∧ classify 0 1 (-1) = .drop :=
  ⟨by norm_num, classify_drop_precedence 0 1 (-1) (by norm_num)⟩

/-- C4: whenever the gate reports the market closed (weekend, or
time-of-day outside the trading window), the cycle attempts no price
fetch and sends no alert — it is a complete no-op. -/
theorem runCycle_closed_noop (dropT gainT : ℚ) (env : Env)
    (h : isOpen env.weekday env.timeOfDay = false) :
    runCycle dropT gainT env = .ok ⟨[], []⟩ := by
  simp [runCycle, h]

/-- C4 (witness): on a Saturday, with a live watch-list and a provider
reporting a 50% crash, the cycle still does nothing. -/
theorem runCycle_closed_noop_witness :
    isOpen envSaturday.weekday envSaturday.timeOfDay = false ∧
    runCycle (-5) 5 envSaturday = .ok ⟨[], []⟩ :=
  ⟨by decide, runCycle_closed_noop (-5) 5 envSaturday (by decide)⟩

/-- C5: the percentage change computed from a fetched window is exactly
`(endPrice - startPrice) / startPrice * 100` whenever the window is
non-empty and its start price is positive, and nothing is computed from
an empty window. -/
theorem computeChange_formula :
    (∀ (rows : List Row) (s e p : ℚ), computeChange rows = some (s, e, p) →
      0 < s → p = (e - s) / s * 100) ∧
    computeChange [] = none := by
  constructor
  · rintro (_ | ⟨row, rows⟩) s e p h _
    · simp [computeChange] at h
    · simp only [computeChange, Option.some.injEq, Prod.mk.injEq] at h
      obtain ⟨hs, he, hp⟩ := h
      subst hs he hp
      rfl
  · rfl

/-- C5 (witness): a window rising from 100 to 110 yields exactly 10%. -/
theorem computeChange_formula_witness :
    computeChange [⟨100⟩, ⟨110⟩] = some (100, 110, 10) ∧ (0 : ℚ) < 100 ∧
    (10 : ℚ) = (110 - 100) / 100 * 100 := by
  have hc : computeChange [(⟨100⟩ : Row), ⟨110⟩] = some (100, 110, 10) := by
    norm_num [computeChange]
  exact ⟨hc, by norm_num,
    computeChange_formula.1 [⟨100⟩, ⟨110⟩] 100 110 10 hc (by norm_num)⟩

/-- C6: one ticker produces at most one alert per cycle, and in
particular never both a DROP and a GAIN alert — the two branches of the
`if/elif` are mutually exclusive. -/
theorem processTicker_at_most_one_alert (dropT gainT : ℚ) (ticker : String)
    (r : FetchResult) :
    (processTicker dropT gainT ticker r).length ≤ 1 ∧
    ¬((∃ a ∈ processTicker dropT gainT ticker r, a.direction = .drop) ∧
      (∃ a ∈ processTicker dropT gainT ticker r, a.direction = .gain)) := by
  rcases r with _ | rows
  · simp [processTicker]
  · rcases h : computeChange rows with _ | ⟨s, e, p⟩
    · simp [processTicker, h]
    · rcases hc : classify p dropT gainT <;> simp [processTicker, h, hc]

/-- C7 (counterexample): the claim says a ticker-list provider failure
is never fatal to the polling cycle, but `get_india_top50()` at line 171
is not inside a `try`: when `fetch_html` raises (unreachable source),
the exception propagates and aborts the cycle instead of leaving an
empty watch-list. -/
theorem listFailure_aborts_cycle :
    get_india_top50 srcUnreachable = .error () ∧
    runCycle (-5) 5 envListUnreachable = .error () := by
  constructor <;> rfl

/-- C7 (amended): a parse failure (page fetched, but no usable table or
ticker column) yields an empty watch-list and a cycle with nothing to
iterate; an unreachable source, however, raises out of
`get_india_top50` and the uncaught exception aborts the polling cycle. -/
theorem listFailure_modes (src : NiftySource) (env : Env) (dropT gainT : ℚ)
    (hopen : isOpen env.weekday env.timeOfDay = true)
    (henv : env.tickersResult = get_india_top50 src) :
    (∀ h, src.html = .ok h → src.parse h = none →
      runCycle dropT gainT env = .ok ⟨[], []⟩) ∧
    (∀ e, src.html = .error e → runCycle dropT gainT env = .error e) := by
  constructor
  · intro h hh hp
    simp [runCycle, hopen, henv, get_india_top50, hh, hp]
  · intro e hh
    simp [runCycle, hopen, henv, get_india_top50, hh]

/-- C7 (witness for the amended theorem), at the parse-failing source:
the cycle completes having fetched and alerted nothing. -/
theorem listFailure_modes_witness :
    runCycle (-5) 5 envListParseFail = .ok ⟨[], []⟩ :=
  (listFailure_modes srcParseFail envListParseFail (-5) 5 (by decide) rfl).1
    "<html></html>" rfl rfl

/-- C8 (counterexample): the claim says a threshold change takes effect
the next cycle, each cycle reflecting the then-current configuration.
But the thresholds are bound once, at `schedule...do(...)` registration:
after the foreground edits the sliders from (-5, 5) to (-1, 1), the next
run of the registered job still classifies a -2% move with the old pair
(no alert), not with the then-current pair (which would alert DROP). -/
theorem threshold_edit_not_seen :
    runScheduledCycle (registerJob (-5) 5) envMinus2 =
      .ok ⟨["TCS.NS"], []⟩ ∧
    runCycle (-1) 1 envMinus2 =
      .ok ⟨["TCS.NS"], [⟨"TCS.NS", .drop, -2, 100, 98⟩]⟩ ∧
    runScheduledCycle (registerJob (-5) 5) envMinus2 ≠
      runCycle (-1) 1 envMinus2 := by
  have h1 : runScheduledCycle (registerJob (-5) 5) envMinus2 =
      .ok ⟨["TCS.NS"], []⟩ := by
    show runCycle (-5) 5 envMinus2 = _
    rw [runCycle_open_eq (-5) 5 envMinus2 ["TCS.NS"] (by decide) rfl]
    norm_num [envMinus2, processTicker, computeChange, classify]
  have h2 : runCycle (-1) 1 envMinus2 =
      .ok ⟨["TCS.NS"], [⟨"TCS.NS", .drop, -2, 100, 98⟩]⟩ := by
    rw [runCycle_open_eq (-1) 1 envMinus2 ["TCS.NS"] (by decide) rfl]
    norm_num [envMinus2, processTicker, computeChange, classify]
  refine ⟨h1, h2, ?_⟩
  rw [h1, h2]
  simp

/-- C8 (amended): the threshold pair is captured once at job
registration; every scheduled cycle classifies against that single
captured pair (one consistent pair per cycle), and a foreground edit
made between cycles has no effect on any later cycle of the registered
job. -/
theorem scheduled_cycles_ignore_edits (initialCfg cfg1 cfg2 : ℚ × ℚ)
    (env1 env2 : Env) :
    runTwoCycles initialCfg cfg1 env1 env2 =
      runTwoCycles initialCfg cfg2 env1 env2 ∧
    (runTwoCycles initialCfg cfg1 env1 env2).2 =
      runCycle initialCfg.1 initialCfg.2 env2 :=
  ⟨rfl, rfl⟩

/-- C9: the background scheduler thread is started exactly when the
selected exchange is India; with the US exchange selected, no scheduler
runs and background monitoring sends no Telegram alert. -/
theorem scheduler_only_for_india :
    (∀ exchange : String, schedulerStarted exchange = true ↔
      exchange = "India") ∧
    schedulerStarted "US" = false ∧
    (∀ (dropT gainT : ℚ) (env : Env),
      backgroundAlerts "US" dropT gainT env = []) := by
  refine ⟨?_, rfl, ?_⟩
  · intro exchange
    simp [schedulerStarted]
  · intro dropT gainT env
    rfl

/-- C10: a one-day window returning exactly one price row has that row's
close as both its start and end price, so the computed change is 0%, and
with any sane configuration (dropT < 0 < gainT) no alert is sent. -/
theorem single_row_no_alert (dropT gainT : ℚ) (ticker : String) (row : Row)
    (hd : dropT < 0) (hg : 0 < gainT) :
    computeChange [row] = some (row.close, row.close, 0) ∧
    processTicker dropT gainT ticker (.ok [row]) = [] := by
  have hpct : (row.close - row.close) / row.close * 100 = 0 := by
    simp
  have hcl : classify 0 dropT gainT = .none := by
    have h1 : ¬ ((0 : ℚ) ≤ dropT) := by linarith
    have h2 : ¬ (gainT ≤ (0 : ℚ)) := by linarith
    simp [classify, h1, h2]
  constructor
  · simp [computeChange, hpct]
  · simp [processTicker, computeChange, hpct, hcl]

/-- C10 (witness): a single row closing at 100 with thresholds
(-5, 5). -/
theorem single_row_no_alert_witness :
    ((-5 : ℚ) < 0 ∧ (0 : ℚ) < 5) ∧
    computeChange [⟨100⟩] = some (100, 100, 0) ∧
    processTicker (-5) 5 "TCS.NS" (.ok [⟨100⟩]) = [] :=
  ⟨⟨by norm_num, by norm_num⟩,
   single_row_no_alert (-5) 5 "TCS.NS" ⟨100⟩ (by norm_num) (by norm_num)⟩

end StockTracker
